import Mathlib

/-!
A verification development for a small FastAPI movie-catalog service
(`src/main.py`).  The program keeps a single process-wide dictionary
`MOVIES : Dict[UUID, Movie]` and exposes JSON CRUD endpoints plus an HTML
form.  The embedding below translates the pydantic schema (`MovieCreate`,
`Movie`, the `check_year` field validator), the dictionary, the five JSON
handlers, the form handler `submit_movie`, and the per-record HTML
rendering of the homepage.

Modelling conventions, each noted again at the definition it concerns:
* `UUID` values are modelled as `Nat`; `uuid4()` draws are passed in as an
  explicit `newId` argument.
* `date.today().year` is passed in as an explicit `cy` (current year)
  argument.
* The dictionary is modelled as the partial map `Nat → Option Movie`;
  no claim below depends on iteration order.
* pydantic's request parsing and field validation run before a handler
  body; `validate` below performs them on a `RawMovie` of already
  type-coerced optional fields.
* The source calls `movie_in.model_dict()` in `create_movie` and
  `update_movie`.  A pydantic (v2) `BaseModel` has the method
  `model_dump` but no method `model_dict`, so that attribute access
  raises `AttributeError` at run time; the flag `pydantic_has_model_dict`
  records this fact and the handlers branch on it, so both the literal
  behaviour (an internal server error) and the evidently intended
  behaviour (the `_dump` variants, which read the call as `model_dump`)
  are available side by side.
-/

/-- The request schema `MovieCreate` (src/main.py lines 11-18), after
pydantic validation: `title` and `year` are required, every other field
is optional with default `None`.  `poster_url` holds the text of an
already-validated URL. -/
structure MovieCreate where
  title : String
  year : Int
  director : Option String := none
  synopsis : Option String := none
  poster_url : Option String := none
  source : Option String := none
  source_id : Option String := none
deriving DecidableEq

/-- The stored/response schema `Movie` (src/main.py lines 28-29):
`MovieCreate` plus the server-generated `id` (a UUID, modelled as `Nat`). -/
structure Movie extends MovieCreate where
  id : Nat
deriving DecidableEq

/-- Raw request fields before validation, after the basic type coercion
pydantic / FastAPI perform (a missing field is `none`; `year` already
parsed as an integer — an unparseable `year` is rejected by the schema
layer before `check_year` and never reaches the code modelled here). -/
structure RawMovie where
  title : Option String
  year : Option Int
  director : Option String := none
  synopsis : Option String := none
  poster_url : Option String := none
  source : Option String := none
  source_id : Option String := none
deriving DecidableEq

/-- The `check_year` field validator (src/main.py lines 20-26).
`current_year` stands for `date.today().year`, a wall-clock value the
source reads inside the validator; here it is an explicit argument. -/
def check_year (current_year : Int) (v : Int) : Except String Int :=
  if v < 1888 || v > current_year + 1 then
    .error s!"year must be between 1888 and {current_year + 1}"
  else
    .ok v

/-- Modelled from the spec: pydantic's `HttpUrl` parser (library code, not
in src/) accepts an absolute URL, "scheme + host"; modelled as an
`http://` or `https://` prefix followed by a non-empty remainder. -/
def isHttpUrl (s : String) : Bool :=
  (s.startsWith "http://" && s.length > 7) ||
    (s.startsWith "https://" && s.length > 8)

/-- Field errors pydantic reports for `title`: the field is required, and
that is the only constraint the schema declares (`title : str`). -/
def titleErrs (raw : RawMovie) : List (String × String) :=
  match raw.title with
  | none => [("title", "Field required")]
  | some _ => []

/-- Field errors for `year`: required, and `check_year` must accept it. -/
def yearErrs (cy : Int) (raw : RawMovie) : List (String × String) :=
  match raw.year with
  | none => [("year", "Field required")]
  | some v =>
    match check_year cy v with
    | .error msg => [("year", msg)]
    | .ok _ => []

/-- Field errors for `poster_url`: optional, but must parse as an
`HttpUrl` when present. -/
def posterErrs (raw : RawMovie) : List (String × String) :=
  match raw.poster_url with
  | none => []
  | some u => if isHttpUrl u then [] else [("poster_url", "Input is not a valid URL")]

/-- All field errors pydantic would report for a raw request body against
the `MovieCreate` schema. -/
def fieldErrors (cy : Int) (raw : RawMovie) : List (String × String) :=
  titleErrs raw ++ yearErrs cy raw ++ posterErrs raw

/-- Validation of a raw request body against `MovieCreate` at current
year `cy`: either the normalized record or the list of field errors. -/
def validate (cy : Int) (raw : RawMovie) : Except (List (String × String)) MovieCreate :=
  match raw.title, raw.year with
  | some t, some y =>
    match fieldErrors cy raw with
    | [] => .ok ⟨t, y, raw.director, raw.synopsis, raw.poster_url, raw.source, raw.source_id⟩
    | e => .error e
  | _, _ => .error (fieldErrors cy raw)

/-- The in-memory database `MOVIES : Dict[UUID, Movie]` (src/main.py line
33), modelled as a partial map from ids; no claim depends on the
dictionary's iteration order. -/
def Store : Type := Nat → Option Movie

/-- The empty dictionary: the value of `MOVIES` at process start. -/
def emptyStore : Store := fun _ => none

/-- Dictionary assignment `MOVIES[k] = v`. -/
def Store.set (st : Store) (k : Nat) (v : Movie) : Store :=
  fun k2 => if k2 = k then some v else st k2

/-- Dictionary deletion `del MOVIES[k]`. -/
def Store.erase (st : Store) (k : Nat) : Store :=
  fun k2 => if k2 = k then none else st k2

/-- HTTP responses the handlers produce. -/
inductive Response where
  | json201 (m : Movie)
  | json200 (m : Movie)
  | noContent204
  | err (status : Nat) (detail : String)
  | validationErr422 (errs : List (String × String))
  | redirect303 (location : String)
  | serverError500 (msg : String)
deriving DecidableEq

/-- Whether a pydantic v2 `BaseModel` has a method named `model_dict`.
It has `model_dump`, `model_dump_json`, `model_copy`, ... but no
`model_dict`, so the source's calls `movie_in.model_dict()` raise
`AttributeError`. -/
def pydantic_has_model_dict : Bool := false

/-- The `AttributeError` message the failed lookup produces, surfaced by
the framework as an internal server error. -/
def model_dict_error : String :=
  "MovieCreate object has no attribute model_dict"

/-- The `create_movie` handler body as evidently intended (the
`model_dict` call read as pydantic's `model_dump`): build
`Movie(id=movie_id, **fields)`, store it under `movie_id`, return it
with status 201 (src/main.py lines 50-53). -/
def create_movie_dump (st : Store) (newId : Nat) (movie_in : MovieCreate) :
    Store × Response :=
  let movie_obj : Movie := { movie_in with id := newId }
  (st.set newId movie_obj, .json201 movie_obj)

/-- The `create_movie` handler body (src/main.py lines 37-53), after
validation; `newId` is the `uuid4()` draw.  The source evaluates
`movie_in.model_dict()` before any store mutation; the method does not
exist, so the literal behaviour is an `AttributeError` with the store
untouched. -/
def create_movie (st : Store) (newId : Nat) (movie_in : MovieCreate) :
    Store × Response :=
  if pydantic_has_model_dict then create_movie_dump st newId movie_in
  else (st, .serverError500 model_dict_error)

/-- The `get_movie` handler (src/main.py lines 60-65).  `if not movie`
is a `None` test: a pydantic model instance is always truthy. -/
def get_movie (st : Store) (movie_id : Nat) : Store × Response :=
  match st movie_id with
  | none => (st, .err 404 "Movie not found")
  | some movie => (st, .json200 movie)

/-- The `update_movie` handler body as evidently intended (`model_dict`
read as `model_dump`): overwrite the entry at `movie_id` with a `Movie`
built entirely from `movie_in`, keeping the id (src/main.py lines 74-76). -/
def update_movie_dump (st : Store) (movie_id : Nat) (movie_in : MovieCreate) :
    Store × Response :=
  let updated : Movie := { movie_in with id := movie_id }
  (st.set movie_id updated, .json200 updated)

/-- The `update_movie` handler body (src/main.py lines 67-76), after
validation of `movie_in`.  The membership test and its 404 come first;
only then does the source evaluate `movie_in.model_dict()`, which raises
`AttributeError`, so on an existing id the literal behaviour is an
internal server error with the store untouched. -/
def update_movie (st : Store) (movie_id : Nat) (movie_in : MovieCreate) :
    Store × Response :=
  match st movie_id with
  | none => (st, .err 404 "Movie not found")
  | some _ =>
    if pydantic_has_model_dict then update_movie_dump st movie_id movie_in
    else (st, .serverError500 model_dict_error)

/-- The `delete_movie` handler (src/main.py lines 78-83). -/
def delete_movie (st : Store) (movie_id : Nat) : Store × Response :=
  match st movie_id with
  | none => (st, .err 404 "Movie not found")
  | some _ => (st.erase movie_id, .noContent204)

/-- `POST /movies`: FastAPI validates the body against `MovieCreate`
(422 on failure, handler untouched), then runs `create_movie`. -/
def postMovies (cy : Int) (st : Store) (newId : Nat) (raw : RawMovie) :
    Store × Response :=
  match validate cy raw with
  | .error errs => (st, .validationErr422 errs)
  | .ok movie_in => create_movie st newId movie_in

/-- `POST /movies` with the handler's `model_dict` read as `model_dump`. -/
def postMovies_dump (cy : Int) (st : Store) (newId : Nat) (raw : RawMovie) :
    Store × Response :=
  match validate cy raw with
  | .error errs => (st, .validationErr422 errs)
  | .ok movie_in => create_movie_dump st newId movie_in

/-- `PUT /movies/{movie_id}`: body validation, then `update_movie`. -/
def putMovie (cy : Int) (st : Store) (movie_id : Nat) (raw : RawMovie) :
    Store × Response :=
  match validate cy raw with
  | .error errs => (st, .validationErr422 errs)
  | .ok movie_in => update_movie st movie_id movie_in

/-- `PUT /movies/{movie_id}` with `model_dict` read as `model_dump`. -/
def putMovie_dump (cy : Int) (st : Store) (movie_id : Nat) (raw : RawMovie) :
    Store × Response :=
  match validate cy raw with
  | .error errs => (st, .validationErr422 errs)
  | .ok movie_in => update_movie_dump st movie_id movie_in

/-- Errors FastAPI reports when binding the `Form` parameters of
`submit_movie` (src/main.py lines 170-177): `title` and `year` are
`Form(...)` (required), the rest optional.  Binding failures — a
missing required field, or a `year` that does not coerce to an integer
(carried by `RawMovie`'s typing) — and only they become 422 responses
on this endpoint. -/
def formBindingErrs (raw : RawMovie) : List (String × String) :=
  (match raw.title with
    | none => [("title", "Field required")]
    | some _ => []) ++
    (match raw.year with
      | none => [("year", "Field required")]
      | some _ => [])

/-- The unhandled `pydantic.ValidationError` a failing `MovieCreate(...)`
call raises inside the `submit_movie` handler body.  FastAPI converts
only binding-level `RequestValidationError`s to 422, so this exception
surfaces as an internal server error. -/
def pydantic_validation_error : String := "ValidationError"

/-- The `submit_movie` form handler (src/main.py lines 168-192).  FastAPI
first binds the `Form` parameters; a binding failure is answered with
422 before the handler runs.  The handler body then constructs
`MovieCreate(...)`: a value-level failure there (`check_year`, a bad
`poster_url`) raises `pydantic.ValidationError` out of the handler and
surfaces as a 500, not a 422.  On a validated record `create_movie` is
called (its `AttributeError` propagates) and only then is
`RedirectResponse(url="/", status_code=303)` returned. -/
def submit_movie (cy : Int) (st : Store) (newId : Nat) (raw : RawMovie) :
    Store × Response :=
  match raw.title, raw.year with
  | some _, some _ =>
    match validate cy raw with
    | .error _ => (st, .serverError500 pydantic_validation_error)
    | .ok mc =>
      let created := create_movie st newId mc
      match created.2 with
      | .serverError500 msg => (created.1, .serverError500 msg)
      | _ => (created.1, .redirect303 "/")
  | _, _ => (st, .validationErr422 (formBindingErrs raw))

/-- `submit_movie` with the create handler's `model_dict` read as
`model_dump`; the binding layer and the in-handler `ValidationError`
path are as in `submit_movie`. -/
def submit_movie_dump (cy : Int) (st : Store) (newId : Nat) (raw : RawMovie) :
    Store × Response :=
  match raw.title, raw.year with
  | some _, some _ =>
    match validate cy raw with
    | .error _ => (st, .serverError500 pydantic_validation_error)
    | .ok mc =>
      let created := create_movie_dump st newId mc
      match created.2 with
      | .serverError500 msg => (created.1, .serverError500 msg)
      | _ => (created.1, .redirect303 "/")
  | _, _ => (st, .validationErr422 (formBindingErrs raw))

/-- Whether a create request succeeded: the JSON endpoint answers 201
with the created record, the form endpoint a 303 redirect; every other
response is a rejection or an error. -/
def isSuccess (p : Store × Response) : Bool :=
  match p.2 with
  | .json201 _ => true
  | .redirect303 _ => true
  | _ => false

/-- The validation outcome visible in a handler result: the field errors
of a 422 response, `none` for any other response. -/
def valOutcome (p : Store × Response) : Option (List (String × String)) :=
  match p.2 with
  | .validationErr422 errs => some errs
  | _ => none

/-- The double-quote character, written by code point to keep string and
character literals in this file unambiguous. -/
def quoteChar : Char := Char.ofNat 34

/-- The apostrophe character, by code point. -/
def aposChar : Char := Char.ofNat 39

/-- Python `html.escape(s)` (quote=True) on one character: `&`, `<`, `>`,
`"` and the apostrophe become entities, everything else is kept.  The
sequential `str.replace` calls of the library function replace `&` first,
so their combined effect is exactly this independent per-character map. -/
def escChar (c : Char) : List Char :=
  if c = '&' then ['&', 'a', 'm', 'p', ';']
  else if c = '<' then ['&', 'l', 't', ';']
  else if c = '>' then ['&', 'g', 't', ';']
  else if c = quoteChar then ['&', 'q', 'u', 'o', 't', ';']
  else if c = aposChar then ['&', '#', 'x', '2', '7', ';']
  else [c]

/-- `html.escape` over a character list. -/
def escChars : List Char → List Char
  | [] => []
  | c :: cs => escChar c ++ escChars cs

/-- Python `html.escape(s)` with `quote=True`, the call the homepage
makes on every text field it interpolates. -/
def pyEscape (s : String) : String := ⟨escChars s.data⟩

/-- The decimal digit characters, for rendering integers. -/
def digitChar : Nat → Char
  | 0 => '0'
  | 1 => '1'
  | 2 => '2'
  | 3 => '3'
  | 4 => '4'
  | 5 => '5'
  | 6 => '6'
  | 7 => '7'
  | 8 => '8'
  | _ => '9'

/-- Decimal rendering of a natural number, most significant digit first,
prepended to `acc`. -/
def natStrGo (n : Nat) (acc : List Char) : List Char :=
  if n < 10 then digitChar n :: acc
  else natStrGo (n / 10) (digitChar (n % 10) :: acc)
termination_by n
decreasing_by
  exact Nat.div_lt_self (by omega) (by omega)

/-- Python `str` of a natural number. -/
def natStr (n : Nat) : String := ⟨natStrGo n []⟩

/-- Python `str(int)`: decimal digits, a leading minus sign when
negative.  This is what the f-string interpolation `{m.year}` renders. -/
def intStr (i : Int) : String :=
  if i < 0 then "-" ++ natStr (-i).toNat else natStr i.toNat

/-- The `<img>` fragment of a homepage list item (src/main.py line 99):
rendered only when `m.poster_url` is truthy (present and non-empty), with
the URL passed through `html.escape` inside the quoted `src` attribute. -/
def posterFrag (poster_url : Option String) : String :=
  match poster_url with
  | some u =>
    if u = "" then ""
    else "<img src=\"" ++ pyEscape u ++ "\" alt=\"poster\" style=\"height:60px;\">"
  | none => ""

/-- The homepage list-item template (the f-string of src/main.py lines
97-105) over already-rendered fragments: the poster fragment, the escaped
title, the rendered year and the escaped director. -/
def itemHtml (poster title year director : String) : String :=
  "\n            <li style=\"margin:8px 0; list-style: none; display:flex; gap:10px; align-items:center;\">\n                "
    ++ poster
    ++ "\n                <div>\n                  <strong>"
    ++ title
    ++ "</strong> ("
    ++ year
    ++ ")<br>\n                  <small>"
    ++ director
    ++ "</small>\n                </div>\n            </li>\n            "

/-- One movie's list item as the homepage builds it (src/main.py lines
96-106): `html.escape` on the title, on `m.director or ''` (empty for a
missing or empty director) and on the poster URL; the year interpolated
as `str(m.year)`. -/
def renderItem (m : Movie) : String :=
  itemHtml (posterFrag m.poster_url) (pyEscape m.title) (intStr m.year)
    (pyEscape (match m.director with | some d => d | none => ""))

/-- The listing section of the homepage (src/main.py line 107): the items
joined by newlines, or a fixed placeholder when the store is empty. -/
def moviesListHtml (ms : List Movie) : String :=
  match ms with
  | [] => "<li>No movies yet. Be the first!</li>"
  | _ => String.intercalate "\n" (ms.map renderItem)

/-- A character that can open a tag or close an HTML attribute: text
containing none of these cannot inject markup into the page, neither in
element context nor inside a quoted attribute. -/
def markupChar (c : Char) : Bool :=
  c = '<' || c = '>' || c = quoteChar || c = aposChar

/-- Markup-freedom of a rendered fragment. -/
def noMarkup (s : String) : Bool := s.data.all (fun c => !markupChar c)

/-- One inbound mutating request: a create with its `uuid4()` draw, a
replace, or a delete, each carrying its raw body where it has one. -/
inductive Req where
  | post (newId : Nat) (raw : RawMovie)
  | put (movie_id : Nat) (raw : RawMovie)
  | del (movie_id : Nat)
deriving DecidableEq

/-- The store after one request against the literal handlers. -/
def applyReq (cy : Int) (st : Store) : Req → Store
  | .post newId raw => (postMovies cy st newId raw).1
  | .put movie_id raw => (putMovie cy st movie_id raw).1
  | .del movie_id => (delete_movie st movie_id).1

/-- The store after one request with `model_dict` read as `model_dump`. -/
def applyReqDump (cy : Int) (st : Store) : Req → Store
  | .post newId raw => (postMovies_dump cy st newId raw).1
  | .put movie_id raw => (putMovie_dump cy st movie_id raw).1
  | .del movie_id => (delete_movie st movie_id).1

/-- A record satisfying the Validator's constraints: the year in range
for current year `cy` and the poster URL, when present, well formed.
(The title constraint the schema declares — presence — is carried by the
type.) -/
def validMovie (cy : Int) (m : Movie) : Prop :=
  1888 ≤ m.year ∧ m.year ≤ cy + 1 ∧ ∀ u, m.poster_url = some u → isHttpUrl u = true

/-- The Store invariant of the spec: every stored record sits under its
own id, ids are unique across live records, and every stored record
satisfies the Validator's constraints. -/
def StoreInv (cy : Int) (st : Store) : Prop :=
  (∀ k m, st k = some m → m.id = k ∧ validMovie cy m) ∧
    ∀ k1 k2 m1 m2, st k1 = some m1 → st k2 = some m2 → m1.id = m2.id → k1 = k2

theorem storeInv_of_ids (cy : Int) (st : Store)
    (h : ∀ k m, st k = some m → m.id = k ∧ validMovie cy m) : StoreInv cy st := by
  refine ⟨h, fun k1 k2 m1 m2 h1 h2 he => ?_⟩
  have e1 := (h k1 m1 h1).1
  have e2 := (h k2 m2 h2).1
  omega

theorem yearErrs_nil_bounds (cy : Int) (raw : RawMovie) (y : Int)
    (hy : raw.year = some y) (h : yearErrs cy raw = []) :
    1888 ≤ y ∧ y ≤ cy + 1 := by
  simp only [yearErrs, hy] at h
  unfold check_year at h
  by_cases hc : (y < 1888 || y > cy + 1) = true
  · rw [if_pos hc] at h; simp at h
  · simp only [Bool.or_eq_true, decide_eq_true_eq, not_or] at hc; omega

theorem validate_ok_valid (cy : Int) (raw : RawMovie) (mc : MovieCreate)
    (h : validate cy raw = .ok mc) :
    1888 ≤ mc.year ∧ mc.year ≤ cy + 1 ∧
      ∀ u, mc.poster_url = some u → isHttpUrl u = true := by
  unfold validate at h
  cases ht : raw.title with
  | none => rw [ht] at h; cases hy : raw.year <;> simp [hy] at h
  | some t =>
    cases hy : raw.year with
    | none => rw [ht, hy] at h; simp at h
    | some y =>
      rw [ht, hy] at h
      cases he : fieldErrors cy raw with
      | cons p l => rw [he] at h; simp at h
      | nil =>
        rw [he] at h
        rw [fieldErrors, List.append_eq_nil, List.append_eq_nil] at he
        obtain ⟨⟨_, hyerr⟩, hperr⟩ := he
        simp only [Except.ok.injEq] at h
        subst h
        have hb := yearErrs_nil_bounds cy raw y hy hyerr
        refine ⟨hb.1, hb.2, ?_⟩
        intro u hu
        simp only at hu
        simp only [posterErrs, hu] at hperr
        by_cases hi : isHttpUrl u = true
        · exact hi
        · rw [if_neg hi] at hperr; simp at hperr

theorem storeInv_set (cy : Int) (st : Store) (k : Nat) (m : Movie)
    (hst : StoreInv cy st) (hid : m.id = k) (hm : validMovie cy m) :
    StoreInv cy (st.set k m) := by
  apply storeInv_of_ids
  intro k2 m2 h2
  unfold Store.set at h2
  by_cases he : k2 = k
  · rw [if_pos he] at h2
    cases h2
    exact ⟨he ▸ hid, hm⟩
  · rw [if_neg he] at h2
    exact hst.1 k2 m2 h2

theorem storeInv_erase (cy : Int) (st : Store) (k : Nat)
    (hst : StoreInv cy st) : StoreInv cy (st.erase k) := by
  apply storeInv_of_ids
  intro k2 m2 h2
  unfold Store.erase at h2
  by_cases he : k2 = k
  · rw [if_pos he] at h2; cases h2
  · rw [if_neg he] at h2
    exact hst.1 k2 m2 h2

theorem applyReq_preserves (cy : Int) (st : Store) (r : Req)
    (hst : StoreInv cy st) : StoreInv cy (applyReq cy st r) := by
  cases r with
  | post newId raw =>
    show StoreInv cy (postMovies cy st newId raw).1
    unfold postMovies
    cases validate cy raw with
    | error e => exact hst
    | ok mc =>
      show StoreInv cy (create_movie st newId mc).1
      unfold create_movie pydantic_has_model_dict
      simp only [Bool.false_eq_true, if_false]
      exact hst
  | put movie_id raw =>
    show StoreInv cy (putMovie cy st movie_id raw).1
    unfold putMovie
    cases validate cy raw with
    | error e => exact hst
    | ok mc =>
      show StoreInv cy (update_movie st movie_id mc).1
      unfold update_movie
      cases st movie_id with
      | none => exact hst
      | some m =>
        unfold pydantic_has_model_dict
        simp only [Bool.false_eq_true, if_false]
        exact hst
  | del movie_id =>
    show StoreInv cy (delete_movie st movie_id).1
    unfold delete_movie
    cases st movie_id with
    | none => exact hst
    | some m => exact storeInv_erase cy st movie_id hst

theorem applyReqDump_preserves (cy : Int) (st : Store) (r : Req)
    (hst : StoreInv cy st) : StoreInv cy (applyReqDump cy st r) := by
  cases r with
  | post newId raw =>
    show StoreInv cy (postMovies_dump cy st newId raw).1
    unfold postMovies_dump
    cases hv : validate cy raw with
    | error e => exact hst
    | ok mc =>
      have hval := validate_ok_valid cy raw mc hv
      show StoreInv cy (create_movie_dump st newId mc).1
      unfold create_movie_dump
      exact storeInv_set cy st newId _ hst rfl hval
  | put movie_id raw =>
    show StoreInv cy (putMovie_dump cy st movie_id raw).1
    unfold putMovie_dump
    cases hv : validate cy raw with
    | error e => exact hst
    | ok mc =>
      have hval := validate_ok_valid cy raw mc hv
      show StoreInv cy (update_movie_dump st movie_id mc).1
      unfold update_movie_dump
      exact storeInv_set cy st movie_id _ hst rfl hval
  | del movie_id =>
    show StoreInv cy (delete_movie st movie_id).1
    unfold delete_movie
    cases st movie_id with
    | none => exact hst
    | some m => exact storeInv_erase cy st movie_id hst

theorem storeInv_empty (cy : Int) : StoreInv cy emptyStore := by
  apply storeInv_of_ids
  intro k m h
  simp [emptyStore] at h

theorem escChar_no_markup (c c2 : Char) (h : c2 ∈ escChar c) : markupChar c2 = false := by
  unfold escChar at h
  by_cases h1 : c = '&'
  · rw [if_pos h1] at h
    simp only [List.mem_cons, List.not_mem_nil, or_false] at h
    rcases h with h | h | h | h | h <;> subst h <;> decide
  · rw [if_neg h1] at h
    by_cases h2 : c = '<'
    · rw [if_pos h2] at h
      simp only [List.mem_cons, List.not_mem_nil, or_false] at h
      rcases h with h | h | h | h <;> subst h <;> decide
    · rw [if_neg h2] at h
      by_cases h3 : c = '>'
      · rw [if_pos h3] at h
        simp only [List.mem_cons, List.not_mem_nil, or_false] at h
        rcases h with h | h | h | h <;> subst h <;> decide
      · rw [if_neg h3] at h
        by_cases h4 : c = quoteChar
        · rw [if_pos h4] at h
          simp only [List.mem_cons, List.not_mem_nil, or_false] at h
          rcases h with h | h | h | h | h | h <;> subst h <;> decide
        · rw [if_neg h4] at h
          by_cases h5 : c = aposChar
          · rw [if_pos h5] at h
            simp only [List.mem_cons, List.not_mem_nil, or_false] at h
            rcases h with h | h | h | h | h | h <;> subst h <;> decide
          · rw [if_neg h5] at h
            simp only [List.mem_cons, List.not_mem_nil, or_false] at h
            subst h
            simp [markupChar, h2, h3, h4, h5]

theorem escChars_no_markup (l : List Char) (c2 : Char) (h : c2 ∈ escChars l) :
    markupChar c2 = false := by
  induction l with
  | nil => simp [escChars] at h
  | cons c cs ih =>
    unfold escChars at h
    rcases List.mem_append.mp h with h1 | h1
    · exact escChar_no_markup c c2 h1
    · exact ih h1

theorem noMarkup_pyEscape (s : String) : noMarkup (pyEscape s) = true := by
  unfold noMarkup
  rw [List.all_eq_true]
  intro c hc
  have := escChars_no_markup s.data c hc
  simp [this]

theorem digitChar_no_markup (d : Nat) : markupChar (digitChar d) = false := by
  match d with
  | 0 => rfl
  | 1 => rfl
  | 2 => rfl
  | 3 => rfl
  | 4 => rfl
  | 5 => rfl
  | 6 => rfl
  | 7 => rfl
  | 8 => rfl
  | _ + 9 => rfl

theorem natStrGo_no_markup (n : Nat) : ∀ acc, (∀ c2 ∈ acc, markupChar c2 = false) →
    ∀ c ∈ natStrGo n acc, markupChar c = false := by
  induction n using Nat.strong_induction_on with
  | _ n ih =>
    intro acc hacc c hc
    rw [natStrGo] at hc
    by_cases h : n < 10
    · rw [if_pos h] at hc
      rcases List.mem_cons.mp hc with h1 | h1
      · subst h1; exact digitChar_no_markup n
      · exact hacc c h1
    · rw [if_neg h] at hc
      refine ih (n / 10) (Nat.div_lt_self (by omega) (by omega)) _ ?_ c hc
      intro c2 hc2
      rcases List.mem_cons.mp hc2 with h2 | h2
      · subst h2; exact digitChar_no_markup _
      · exact hacc _ h2

theorem natStr_chars (n : Nat) : ∀ c ∈ (natStr n).data, markupChar c = false := by
  intro c hc
  exact natStrGo_no_markup n [] (by intro c2 hc2; simp at hc2) c hc

theorem noMarkup_intStr (i : Int) : noMarkup (intStr i) = true := by
  unfold intStr noMarkup
  rw [List.all_eq_true]
  intro c hc
  by_cases h : i < 0
  · rw [if_pos h] at hc
    rw [String.data_append] at hc
    rcases List.mem_append.mp hc with h1 | h1
    · simp only [List.mem_cons, List.not_mem_nil, or_false] at h1
      subst h1; decide
    · have := natStr_chars (-i).toNat c h1
      simp [this]
  · rw [if_neg h] at hc
    have := natStr_chars i.toNat c hc
    simp [this]

theorem validate_ok_fields (cy : Int) (raw : RawMovie) (mc : MovieCreate)
    (h : validate cy raw = .ok mc) :
    raw.title = some mc.title ∧ raw.year = some mc.year := by
  unfold validate at h
  cases ht : raw.title with
  | none => rw [ht] at h; cases hy : raw.year <;> simp [hy] at h
  | some t =>
    cases hy : raw.year with
    | none => rw [ht, hy] at h; simp at h
    | some y =>
      rw [ht, hy] at h
      cases he : fieldErrors cy raw with
      | cons p l => rw [he] at h; simp at h
      | nil =>
        rw [he] at h
        simp only [Except.ok.injEq] at h
        subst h
        exact ⟨rfl, rfl⟩

/-- A raw body for the spec's worked example: Inception, 2010,
Christopher Nolan. -/
def rawInception : RawMovie :=
  { title := some "Inception", year := some 2010, director := some "Christopher Nolan" }

/-- C1.  The claim says `create` on a Validator-accepted record followed
by `get` on the returned id succeeds and returns the input plus the id.
On the code, `create_movie` evaluates `movie_in.model_dict()` — a method
pydantic's `BaseModel` does not have (`model_dump` is the method that
exists) — so the create request raises `AttributeError` (an internal
server error), no id is ever returned, no record is stored, and a
subsequent `get` can only give 404.  Evaluated here on the concrete
valid record. -/
theorem c1_create_then_get_crashes :
    postMovies 2025 emptyStore 1 rawInception
        = (emptyStore, Response.serverError500 model_dict_error) ∧
      get_movie emptyStore 1 = (emptyStore, Response.err 404 "Movie not found") :=
  ⟨rfl, rfl⟩

/-- C2.  The claim says `create` on a validated record never fails.  On
the code it never succeeds: for every store, id draw and validated
record, `create_movie` hits the nonexistent `model_dict` method and
returns an internal server error, leaving the store untouched. -/
theorem c2_create_always_crashes (st : Store) (newId : Nat) (movie_in : MovieCreate) :
    create_movie st newId movie_in = (st, Response.serverError500 model_dict_error) := rfl

/-- A record already in the store, for exercising replace on an existing
id. -/
def storedInception : Movie :=
  { title := "Inception", year := 2010, director := some "Christopher Nolan", id := 7 }

/-- A valid replacement record. -/
def arrivalCreate : MovieCreate := { title := "Arrival", year := 2016 }

/-- C3.  The claim says replace on an existing id overwrites all fields
with the new record's values.  On the code, `update_movie` passes its
404 guard (the id exists) and then evaluates `movie_in.model_dict()`,
which does not exist, so the replace raises `AttributeError` and the
stored record is left as it was.  Evaluated on a concrete one-record
store. -/
theorem c3_replace_crashes_on_existing_id :
    update_movie (emptyStore.set 7 storedInception) 7 arrivalCreate
      = (emptyStore.set 7 storedInception, Response.serverError500 model_dict_error) := rfl

/-- C4.  On an id not present in the store, `get_movie`, `update_movie`
(with any validated body) and `delete_movie` each return exactly the 404
"Movie not found" error, never another error kind, and leave the store
unchanged.  (In `update_movie` the membership test precedes the
`model_dict` call, so the 404 path is unaffected by that bug.) -/
theorem c4_missing_id_not_found (st : Store) (movie_id : Nat) (movie_in : MovieCreate)
    (h : st movie_id = none) :
    get_movie st movie_id = (st, Response.err 404 "Movie not found") ∧
      update_movie st movie_id movie_in = (st, Response.err 404 "Movie not found") ∧
      delete_movie st movie_id = (st, Response.err 404 "Movie not found") := by
  unfold get_movie update_movie delete_movie
  rw [h]
  exact ⟨rfl, rfl, rfl⟩

/-- A valid record used to instantiate the 404 theorem. -/
def heatCreate : MovieCreate := { title := "Heat", year := 1995 }

theorem c4_missing_id_not_found_witness :
    emptyStore 3 = none ∧
      (get_movie emptyStore 3 = (emptyStore, Response.err 404 "Movie not found") ∧
        update_movie emptyStore 3 heatCreate = (emptyStore, Response.err 404 "Movie not found") ∧
        delete_movie emptyStore 3 = (emptyStore, Response.err 404 "Movie not found")) :=
  ⟨rfl, c4_missing_id_not_found emptyStore 3 heatCreate rfl⟩

/-- C5.  A `year` outside `[1888, cy + 1]` fails `check_year` with the
error that names the valid range, and a create request carrying such a
year leaves the store unmodified; a `year` inside the range passes
`check_year`. -/
theorem c5_year_range_validation (cy v : Int) (st : Store) (newId : Nat) (raw : RawMovie) :
    ((v < 1888 ∨ v > cy + 1) → raw.year = some v →
        check_year cy v = .error s!"year must be between 1888 and {cy + 1}" ∧
          (postMovies cy st newId raw).1 = st) ∧
      (1888 ≤ v → v ≤ cy + 1 → check_year cy v = .ok v) := by
  constructor
  · intro hbad hy
    constructor
    · unfold check_year
      have hc : (v < 1888 || v > cy + 1) = true := by
        rcases hbad with h | h <;> simp [h]
      rw [if_pos hc]
    · unfold postMovies
      cases hval : validate cy raw with
      | error e => rfl
      | ok mc =>
        exfalso
        have hf := (validate_ok_fields cy raw mc hval).2
        rw [hy] at hf
        have hb := validate_ok_valid cy raw mc hval
        have : v = mc.year := by injection hf
        omega
  · intro h1 h2
    unfold check_year
    rw [if_neg]
    simp only [Bool.or_eq_true, decide_eq_true_eq, not_or]
    omega

theorem c5_year_range_validation_witness :
    (((1850 : Int) < 1888 ∨ (1850 : Int) > 2025 + 1) ∧
        ({ title := some "Old", year := some 1850 } : RawMovie).year = some 1850 ∧
        check_year 2025 1850 = .error s!"year must be between 1888 and {(2025 : Int) + 1}" ∧
        (postMovies 2025 emptyStore 1 { title := some "Old", year := some 1850 }).1
          = emptyStore) ∧
      ((1888 : Int) ≤ 2010 ∧ (2010 : Int) ≤ 2025 + 1) ∧ check_year 2025 2010 = .ok 2010 :=
  ⟨⟨Or.inl (by decide), rfl,
      (c5_year_range_validation 2025 1850 emptyStore 1
          { title := some "Old", year := some 1850 }).1 (Or.inl (by decide)) rfl⟩,
    ⟨by decide, by decide⟩,
    (c5_year_range_validation 2025 2010 emptyStore 1
        { title := some "Old", year := some 1850 }).2 (by decide) (by decide)⟩

/-- C6, counterexample.  The claim says an empty-string title fails
validation; on the code the schema only declares `title: str` with no
non-emptiness constraint, so a record with `title = ""` validates
successfully. -/
theorem c6_empty_title_accepted :
    validate 2025 { title := some "", year := some 2010 }
      = .ok { title := "", year := 2010 } := rfl

/-- C6, amended.  A request missing the `title` field fails validation
with a field error on `title`; presence is enforced, emptiness is not. -/
theorem c6_missing_title_rejected (cy : Int) (raw : RawMovie) (h : raw.title = none) :
    validate cy raw = .error (fieldErrors cy raw) ∧
      ("title", "Field required") ∈ fieldErrors cy raw := by
  constructor
  · unfold validate
    cases hy : raw.year <;> rw [h]
  · unfold fieldErrors titleErrs
    rw [h]
    simp

theorem c6_missing_title_rejected_witness :
    (({ title := none, year := some 2010 } : RawMovie).title = none) ∧
      (validate 2025 { title := none, year := some 2010 }
          = .error (fieldErrors 2025 { title := none, year := some 2010 }) ∧
        ("title", "Field required") ∈ fieldErrors 2025 { title := none, year := some 2010 }) :=
  ⟨rfl, c6_missing_title_rejected 2025 _ rfl⟩

/-- C7.  After any sequence of create/replace/delete requests starting
from the empty store, every stored record sits under its own id, ids are
unique across live records and every stored record satisfies the
Validator's constraints; this holds both for the literal handlers (whose
create/replace never insert, because of the `model_dict` bug) and for
the handlers with `model_dict` read as the intended `model_dump`. -/
theorem c7_store_invariant (cy : Int) (reqs : List Req) :
    StoreInv cy (reqs.foldl (applyReq cy) emptyStore) ∧
      StoreInv cy (reqs.foldl (applyReqDump cy) emptyStore) := by
  constructor
  · have step : ∀ rs : List Req, ∀ st, StoreInv cy st →
        StoreInv cy (rs.foldl (applyReq cy) st) := by
      intro rs
      induction rs with
      | nil => intro st h; exact h
      | cons r rs ih => intro st h; exact ih _ (applyReq_preserves cy st r h)
    exact step reqs emptyStore (storeInv_empty cy)
  · have step : ∀ rs : List Req, ∀ st, StoreInv cy st →
        StoreInv cy (rs.foldl (applyReqDump cy) st) := by
      intro rs
      induction rs with
      | nil => intro st h; exact h
      | cons r rs ih => intro st h; exact ih _ (applyReqDump_preserves cy st r h)
    exact step reqs emptyStore (storeInv_empty cy)

theorem validate_missing_required (cy : Int) (raw : RawMovie)
    (h : raw.title = none ∨ raw.year = none) :
    validate cy raw = .error (fieldErrors cy raw) := by
  rcases h with h | h
  · unfold validate
    cases hy : raw.year <;> rw [h]
  · unfold validate
    cases ht : raw.title <;> rw [h]

/-- C8.  `POST /submit_movie` runs the same validation and creation path
as `POST /movies`: for every input the two endpoints accept or reject
together and leave identical store states — for the literal handlers
and with `model_dict` read as the intended `model_dump` — and with the
create step working as intended a successful form submission responds
with the 303 redirect to `/`.  (The rejection surface differs: a
value-level failure inside the form handler's `MovieCreate(...)` call
is a 500, where the JSON endpoint's pre-handler validation answers 422;
the acceptance/rejection decision and the store state, which the claim
equates, coincide on every input.) -/
theorem c8_form_same_path_and_redirect (cy : Int) (st : Store) (newId : Nat) (raw : RawMovie) :
    (submit_movie cy st newId raw).1 = (postMovies cy st newId raw).1 ∧
      isSuccess (submit_movie cy st newId raw) = isSuccess (postMovies cy st newId raw) ∧
      (submit_movie_dump cy st newId raw).1 = (postMovies_dump cy st newId raw).1 ∧
      isSuccess (submit_movie_dump cy st newId raw)
        = isSuccess (postMovies_dump cy st newId raw) ∧
      ∀ mc, validate cy raw = .ok mc →
        submit_movie_dump cy st newId raw
          = ((postMovies_dump cy st newId raw).1, Response.redirect303 "/") := by
  unfold submit_movie postMovies submit_movie_dump postMovies_dump
  cases ht : raw.title with
  | none =>
    cases hy : raw.year with
    | none =>
      rw [validate_missing_required cy raw (Or.inl ht)]
      exact ⟨rfl, rfl, rfl, rfl, fun mc hmc => by simp at hmc⟩
    | some y =>
      rw [validate_missing_required cy raw (Or.inl ht)]
      exact ⟨rfl, rfl, rfl, rfl, fun mc hmc => by simp at hmc⟩
  | some t =>
    cases hy : raw.year with
    | none =>
      rw [validate_missing_required cy raw (Or.inr hy)]
      exact ⟨rfl, rfl, rfl, rfl, fun mc hmc => by simp at hmc⟩
    | some y =>
      cases hval : validate cy raw with
      | error e => exact ⟨rfl, rfl, rfl, rfl, fun mc hmc => by simp at hmc⟩
      | ok mc => exact ⟨rfl, rfl, rfl, rfl, fun mc2 hmc => rfl⟩

/-- C9.  The homepage list item for any stored record interpolates only
`html.escape` of the title, of the director (or empty) and of the poster
URL, plus the decimal rendering of the integer `year`; each of these
fragments contains no `<`, `>`, `"` or apostrophe, so no stored field
value can open a tag or escape a quoted attribute.  (`year` is the one
field interpolated without `html.escape`; being an integer its rendering
is a sign and digits, which the second conjunct certifies markup-free.) -/
theorem c9_homepage_escapes (m : Movie) :
    renderItem m
        = itemHtml (posterFrag m.poster_url) (pyEscape m.title) (intStr m.year)
            (pyEscape (match m.director with | some d => d | none => "")) ∧
      noMarkup (pyEscape m.title) = true ∧
      noMarkup (intStr m.year) = true ∧
      noMarkup (pyEscape (match m.director with | some d => d | none => "")) = true ∧
      noMarkup (pyEscape (match m.poster_url with | some u => u | none => "")) = true :=
  ⟨rfl, noMarkup_pyEscape _, noMarkup_intStr _, noMarkup_pyEscape _, noMarkup_pyEscape _⟩

/-- C10, counterexample.  The claim says two runs of validation on the
same raw field values always produce the same result.  `check_year`
reads `date.today()`, so the same raw body (title "Tron 3", year 2100)
is rejected when the wall-clock year is 2025 and accepted when it is
2099: the Validator is not a function of the raw fields alone. -/
theorem c10_validation_date_dependent :
    validate 2025 { title := some "Tron 3", year := some 2100 }
        = .error [("year", s!"year must be between 1888 and {(2025 : Int) + 1}")] ∧
      validate 2099 { title := some "Tron 3", year := some 2100 }
        = .ok { title := "Tron 3", year := 2100 } :=
  ⟨rfl, rfl⟩

/-- C10, amended.  The Validator has no side effects and its result is a
function of the raw fields and the current wall-clock year alone: at a
fixed current year the validation outcome of a JSON create request is
independent of the store contents and of the generated id, the form
endpoint's entire response is likewise independent of both, and a
request rejected by validation leaves the store exactly as it was on
either endpoint. -/
theorem c10_validation_state_independent (cy : Int) (raw : RawMovie)
    (st1 st2 : Store) (id1 id2 : Nat) :
    valOutcome (postMovies cy st1 id1 raw) = valOutcome (postMovies cy st2 id2 raw) ∧
      valOutcome (postMovies_dump cy st1 id1 raw)
        = valOutcome (postMovies_dump cy st2 id2 raw) ∧
      (submit_movie cy st1 id1 raw).2 = (submit_movie cy st2 id2 raw).2 ∧
      (submit_movie_dump cy st1 id1 raw).2 = (submit_movie_dump cy st2 id2 raw).2 ∧
      ∀ e, validate cy raw = .error e →
        (postMovies cy st1 id1 raw).1 = st1 ∧ (postMovies_dump cy st1 id1 raw).1 = st1 ∧
          (submit_movie cy st1 id1 raw).1 = st1 ∧ (submit_movie_dump cy st1 id1 raw).1 = st1 := by
  unfold postMovies postMovies_dump submit_movie submit_movie_dump
  cases ht : raw.title with
  | none =>
    cases hy : raw.year with
    | none =>
      rw [validate_missing_required cy raw (Or.inl ht)]
      exact ⟨rfl, rfl, rfl, rfl, fun e2 he => ⟨rfl, rfl, rfl, rfl⟩⟩
    | some y =>
      rw [validate_missing_required cy raw (Or.inl ht)]
      exact ⟨rfl, rfl, rfl, rfl, fun e2 he => ⟨rfl, rfl, rfl, rfl⟩⟩
  | some t =>
    cases hy : raw.year with
    | none =>
      rw [validate_missing_required cy raw (Or.inr hy)]
      exact ⟨rfl, rfl, rfl, rfl, fun e2 he => ⟨rfl, rfl, rfl, rfl⟩⟩
    | some y =>
      cases hval : validate cy raw with
      | error e => exact ⟨rfl, rfl, rfl, rfl, fun e2 he => ⟨rfl, rfl, rfl, rfl⟩⟩
      | ok mc => exact ⟨rfl, rfl, rfl, rfl, fun e2 he => by simp at he⟩
